import Mathlib

/-!
Shallow embedding of the SOLIDserver Terraform provider resource handlers
(`resource_application_pool.go`, the DNS forward zone resource file, and the
IP-MAC resource file) together with proofs about their behaviour.

Modelling conventions:
* A Go `diag.Diagnostics` return value is modelled as `Option String`:
  `none` is the `nil` (success) return and `some msg` is a diagnostics value
  whose message is `msg`.  `diag.FromErr err` is the identity on this model
  (in particular `diag.FromErr(nil)` is `nil`, i.e. `none`).
* The triple returned by `s.Request(verb, path, params)` is modelled by
  `ReqResult`: either a transport error, or a status code together with the
  response body *after* `json.Unmarshal` into `[]map[string]interface{}`
  (the unmarshal error is discarded by the Go code, and a body that fails to
  parse simply leaves `buf` empty, so modelling the parsed array loses
  nothing the handlers can observe).
* A JSON value is `JValue`; the unchecked Go type assertion `v.(string)`
  is `asString` where `none` models a panic, and the comma-ok form
  `v, ok := m[k].(string)` is `asStringOk`, which never panics.
* Handlers that contain unchecked type assertions (the Read/Import handlers)
  return `Option (...)`; a `none` result models the Go panic.
* Each handler result records the state (`ResourceData`) after the call, the
  diagnostics, and the HTTP request that was issued (`none` when the handler
  returned before issuing any request).
-/

/-- A JSON value as produced by `json.Unmarshal` into `interface{}`; only the
distinction between strings and everything else matters to the handlers. -/
inductive JValue where
  | str : String → JValue
  | num : Int → JValue
  | boolean : Bool → JValue
  | null : JValue
deriving DecidableEq, Repr

/-- One element of the unmarshalled response array `[]map[string]interface{}`. -/
abbrev JObj := List (String × JValue)

/-- Map access `m[k]` on a JSON object (first binding wins, as Go maps hold a
single binding per key). -/
def jget (o : JObj) (k : String) : Option JValue :=
  match o with
  | [] => none
  | (k', v) :: rest => if k' = k then some v else jget rest k

/-- The unchecked Go type assertion `v.(string)`; `none` models the panic on a
missing key or a non-string value. -/
def asString (v : Option JValue) : Option String :=
  match v with
  | some (.str s) => some s
  | _ => none

/-- The comma-ok Go type assertion `s, ok := v.(string)`, which never panics. -/
def asStringOk (v : Option JValue) : String × Bool :=
  match v with
  | some (.str s) => (s, true)
  | _ => ("", false)

/-- An HTTP request as issued by `s.Request`: verb, path and the form
parameters in the order the Go code adds them. -/
structure HttpReq where
  verb : String
  path : String
  params : List (String × String)
deriving DecidableEq, Repr

/-- The observable outcome of `s.Request` followed by `json.Unmarshal`:
a transport error, or a status code with the parsed response array. -/
inductive ReqResult where
  | transportErr : String → ReqResult
  | ok : Int → List JObj → ReqResult
deriving DecidableEq, Repr

/-- Result of a Create/Update/Delete/Read handler: the resource data after the
call, the diagnostics (`none` = success), and the request that was issued. -/
structure Outcome (σ : Type) where
  state : σ
  diags : Option String
  req : Option HttpReq
deriving DecidableEq, Repr

/-- Result of an `ImportState` handler, which returns a
`([]*schema.ResourceData, error)` pair: `returned = true` models the
`[]*schema.ResourceData{d}` success slice, `false` the `nil` slice. -/
structure ImportOut (σ : Type) where
  state : σ
  returned : Bool
  errM : Option String
  req : Option HttpReq
deriving DecidableEq, Repr

/-- Models `strconv.Atoi` with its error discarded, as the Go code does
(`n, _ := strconv.Atoi(s)`): the value is 0 whenever the string is not a
plain optionally-signed decimal numeral. -/
def digitsVal (cs : List Char) : Option Nat :=
  cs.foldl
    (fun acc c =>
      match acc with
      | none => none
      | some n => if c.isDigit then some (n * 10 + (c.toNat - 48)) else none)
    (some 0)

/-- `strconv.Atoi` with the error ignored (see `digitsVal`). -/
def atoiIgn (s : String) : Int :=
  match s.data with
  | '-' :: rest =>
    match digitsVal rest with
    | some n => -(n : Int)
    | none => 0
  | '+' :: rest =>
    match digitsVal rest with
    | some n => (n : Int)
    | none => 0
  | cs =>
    match digitsVal cs with
    | some n => (n : Int)
    | none => 0

/-! ## The IP-MAC resource (`resourceipmac`)

Schema fields: `space`, `address`, `mac`; `rid` models `d.Id()`. -/

structure IpMacData where
  rid : String
  space : String
  address : String
  mac : String
deriving DecidableEq, Repr

/-- Parameters built by `resourceipmacCreate` (source order). -/
def resourceipmacCreateParams (d : IpMacData) : List (String × String) :=
  [("site_name", d.space), ("add_flag", "edit_only"), ("hostaddr", d.address),
   ("mac_addr", d.mac.toLower), ("keep_class_parameters", "1")]

/-- `resourceipmacCreate`: a PUT on `rest/ip_add`.  Note the Go control flow:
when the status is 200/201 and the array is non-empty but `ret_oid` is not a
string, no `return` statement fires inside the `if err == nil` block and the
function falls through to `return diag.FromErr(err)` with `err == nil`,
which is a `nil` (success) return. -/
def resourceipmacCreate (d : IpMacData) (r : ReqResult) : Outcome IpMacData :=
  let req : HttpReq := ⟨"put", "rest/ip_add", resourceipmacCreateParams d⟩
  match r with
  | .transportErr e => ⟨d, some e, some req⟩
  | .ok st buf =>
    match buf with
    | [] =>
      ⟨d, some ("Failed to create IP MAC association between " ++ d.address ++
        " and " ++ d.mac ++ "\n"), some req⟩
    | b0 :: _ =>
      if st = 200 ∨ st = 201 then
        match asString (jget b0 "ret_oid") with
        | some oid => ⟨{ d with rid := oid }, none, some req⟩
        | none => ⟨d, none, some req⟩
      else
        ⟨d, some ("Failed to create IP MAC association between " ++ d.address ++
          " and " ++ d.mac ++ "\n"), some req⟩

/-- Parameters built by `resourceipmacDelete` (source order); the MAC is
cleared rather than a delete endpoint being called. -/
def resourceipmacDeleteParams (d : IpMacData) : List (String × String) :=
  [("site_name", d.space), ("add_flag", "edit_only"), ("hostaddr", d.address),
   ("mac_addr", ""), ("keep_class_parameters", "1")]

/-- `resourceipmacDelete`: a PUT on `rest/ip_add` clearing `mac_addr`; the same
fall-through to `diag.FromErr(nil)` as in `resourceipmacCreate` exists when
`ret_oid` is missing on a 200/201 answer. -/
def resourceipmacDelete (d : IpMacData) (r : ReqResult) : Outcome IpMacData :=
  let req : HttpReq := ⟨"put", "rest/ip_add", resourceipmacDeleteParams d⟩
  match r with
  | .transportErr e => ⟨d, some e, some req⟩
  | .ok st buf =>
    match buf with
    | [] =>
      ⟨d, some ("Failed to delete IP MAC association between " ++ d.address ++
        " and " ++ d.mac ++ "\n"), some req⟩
    | b0 :: _ =>
      if st = 200 ∨ st = 201 then
        match asString (jget b0 "ret_oid") with
        | some _ => ⟨{ d with rid := "" }, none, some req⟩
        | none => ⟨d, none, some req⟩
      else
        ⟨d, some ("Failed to delete IP MAC association between " ++ d.address ++
          " and " ++ d.mac ++ "\n"), some req⟩

/-- `resourceipmacRead`: a GET on `rest/ip_address_info`.  Every failure path
inside `if err == nil` runs `d.SetId("")` and then `return diag.FromErr(err)`
with `err == nil`, i.e. returns success with the id cleared. -/
def resourceipmacRead (d : IpMacData) (r : ReqResult) : Outcome IpMacData :=
  let req : HttpReq := ⟨"get", "rest/ip_address_info", [("ip_id", d.rid)]⟩
  match r with
  | .transportErr e => ⟨d, some e, some req⟩
  | .ok st buf =>
    match buf with
    | [] => ⟨{ d with rid := "" }, none, some req⟩
    | b0 :: _ =>
      if st = 200 ∨ st = 201 then
        match asStringOk (jget b0 "mac_addr") with
        | (ipMac, true) =>
          if ipMac.toLower = d.mac.toLower then ⟨d, none, some req⟩
          else ⟨{ d with rid := "" }, none, some req⟩
        | (_, false) => ⟨{ d with rid := "" }, none, some req⟩
      else ⟨{ d with rid := "" }, none, some req⟩

/-! ## The application pool resource (`resourceapplicationpool`)

Schema fields: `application`, `fqdn`, `name`, `ip_version`, `lb_mode`,
`affinity`, `affinity_session_duration`, `best_active_nodes`; `rid` models
`d.Id()`.  Every handler checks `s.Version < 710` (after building parameters
but before issuing any request) and reports
"Object not supported in this SOLIDserver version" when it holds. -/

structure AppPoolData where
  rid : String
  name : String
  application : String
  fqdn : String
  ip_version : String
  lb_mode : String
  affinity : Bool
  affinity_session_duration : Int
  best_active_nodes : Int
deriving DecidableEq, Repr

/-- Parameters built by `resourceapplicationpoolCreate` (source order). -/
def resourceapplicationpoolCreateParams (d : AppPoolData) : List (String × String) :=
  [("add_flag", "new_only"), ("name", d.name), ("appapplication_name", d.application),
   ("appapplication_fqdn", d.fqdn), ("type", d.ip_version), ("lb_mode", d.lb_mode)]
  ++ (if d.affinity = false then [("affinity_state", "0")]
      else [("affinity_state", "1"),
            ("affinity_session_time", toString d.affinity_session_duration)])
  ++ (if d.lb_mode = "latency"
      then [("best_active_nodes", toString d.best_active_nodes)] else [])

/-- Parameters built by `resourceapplicationpoolUpdate` (source order): the
stored id first, then the Create parameters with `edit_only` replacing
`new_only`. -/
def resourceapplicationpoolUpdateParams (d : AppPoolData) : List (String × String) :=
  [("apppool_id", d.rid), ("add_flag", "edit_only"), ("name", d.name),
   ("appapplication_name", d.application), ("appapplication_fqdn", d.fqdn),
   ("type", d.ip_version), ("lb_mode", d.lb_mode)]
  ++ (if d.affinity = false then [("affinity_state", "0")]
      else [("affinity_state", "1"),
            ("affinity_session_time", toString d.affinity_session_duration)])
  ++ (if d.lb_mode = "latency"
      then [("best_active_nodes", toString d.best_active_nodes)] else [])

/-- The version-guard diagnostics shared by the pool Create/Update/Delete/Read
handlers. -/
def versionErr : String := "Object not supported in this SOLIDserver version"

/-- `resourceapplicationpoolCreate`: POST on `rest/app_pool_add`. -/
def resourceapplicationpoolCreate (v : Int) (d : AppPoolData) (r : ReqResult) :
    Outcome AppPoolData :=
  if v < 710 then ⟨d, some versionErr, none⟩
  else
    let req : HttpReq := ⟨"post", "rest/app_pool_add", resourceapplicationpoolCreateParams d⟩
    match r with
    | .transportErr e => ⟨d, some e, some req⟩
    | .ok st buf =>
      match buf with
      | [] => ⟨d, some ("Unable to create application pool: " ++ d.name ++ "\n"), some req⟩
      | b0 :: _ =>
        match (if st = 200 ∨ st = 201 then asString (jget b0 "ret_oid") else none) with
        | some oid => ⟨{ d with rid := oid }, none, some req⟩
        | none =>
          match asStringOk (jget b0 "errmsg") with
          | (e, true) =>
            ⟨d, some ("Unable to create application pool: " ++ d.name ++ " (" ++ e ++ ")"),
              some req⟩
          | (_, false) =>
            ⟨d, some ("Unable to create application pool: " ++ d.name ++ "\n"), some req⟩

/-- `resourceapplicationpoolUpdate`: PUT on `rest/app_pool_add`. -/
def resourceapplicationpoolUpdate (v : Int) (d : AppPoolData) (r : ReqResult) :
    Outcome AppPoolData :=
  if v < 710 then ⟨d, some versionErr, none⟩
  else
    let req : HttpReq := ⟨"put", "rest/app_pool_add", resourceapplicationpoolUpdateParams d⟩
    match r with
    | .transportErr e => ⟨d, some e, some req⟩
    | .ok st buf =>
      match buf with
      | [] => ⟨d, some ("Unable to update application pool: " ++ d.name ++ "\n"), some req⟩
      | b0 :: _ =>
        match (if st = 200 ∨ st = 201 then asString (jget b0 "ret_oid") else none) with
        | some oid => ⟨{ d with rid := oid }, none, some req⟩
        | none =>
          match asStringOk (jget b0 "errmsg") with
          | (e, true) =>
            ⟨d, some ("Unable to update application pool: " ++ d.name ++ " (" ++ e ++ ")"),
              some req⟩
          | (_, false) =>
            ⟨d, some ("Unable to update application pool: " ++ d.name ++ "\n"), some req⟩

/-- `resourceapplicationpoolDelete`: DELETE on `rest/app_pool_delete`;
statuses other than 200/204 are failures, 200/204 clears the local id. -/
def resourceapplicationpoolDelete (v : Int) (d : AppPoolData) (r : ReqResult) :
    Outcome AppPoolData :=
  if v < 710 then ⟨d, some versionErr, none⟩
  else
    let req : HttpReq := ⟨"delete", "rest/app_pool_delete", [("apppool_id", d.rid)]⟩
    match r with
    | .transportErr e => ⟨d, some e, some req⟩
    | .ok st buf =>
      if st ≠ 200 ∧ st ≠ 204 then
        match buf with
        | [] => ⟨d, some ("Unable to delete application pool: " ++ d.name), some req⟩
        | b0 :: _ =>
          match asStringOk (jget b0 "errmsg") with
          | (e, true) =>
            ⟨d, some ("Unable to delete application pool: " ++ d.name ++ " (" ++ e ++ ")"),
              some req⟩
          | (_, false) => ⟨d, some ("Unable to delete application pool: " ++ d.name), some req⟩
      else ⟨{ d with rid := "" }, none, some req⟩

/-- The field extraction performed by `resourceapplicationpoolRead` on a
status-200 non-empty answer; each `asString` is an unchecked `.(string)`
assertion, so a `none` result models a panic. -/
def appPoolReadExtract (d : AppPoolData) (o : JObj) : Option AppPoolData :=
  (asString (jget o "apppool_name")).bind fun nm =>
  (asString (jget o "appapplication_name")).bind fun app =>
  (asString (jget o "appapplication_fqdn")).bind fun fq =>
  (asString (jget o "apppool_lb_mode")).bind fun lb =>
  (asString (jget o "apppool_affinity_state")).bind fun aff =>
  let d1 := { d with name := nm, application := app, fqdn := fq, lb_mode := lb }
  (if aff = "0" then some { d1 with affinity := false }
   else ((asString (jget o "apppool_affinity_session_time")).map
     (fun st =>
       { d1 with affinity := true, affinity_session_duration := atoiIgn st }))).bind
    fun d2 =>
  (asString (jget o "apppool_best_active_nodes")).bind fun ban =>
  some (if ban ≠ "" then { d2 with best_active_nodes := atoiIgn ban } else d2)

/-- `resourceapplicationpoolRead`: GET on `rest/app_pool_info`.  On an
unresolvable answer the local id is deliberately not unset
("Do not unset the local ID to avoid inconsistency") and an error is
returned; `none` models a panic inside the extraction. -/
def resourceapplicationpoolRead (v : Int) (d : AppPoolData) (r : ReqResult) :
    Option (Outcome AppPoolData) :=
  if v < 710 then some ⟨d, some versionErr, none⟩
  else
    let req : HttpReq := ⟨"get", "rest/app_pool_info", [("apppool_id", d.rid)]⟩
    match r with
    | .transportErr e => some ⟨d, some e, some req⟩
    | .ok st buf =>
      match buf with
      | [] => some ⟨d, some ("Unable to find application pool: " ++ d.name ++ "\n"), some req⟩
      | b0 :: _ =>
        if st = 200 then
          match appPoolReadExtract d b0 with
          | some d' => some ⟨d', none, some req⟩
          | none => none
        else
          some ⟨d, some ("Unable to find application pool: " ++ d.name ++ "\n"), some req⟩

/-- The field extraction performed by `resourceapplicationpoolImportState`.
It differs from the Read extraction: `d.Set("affinity_state", _)` targets a
key that is not in the schema (the error is discarded, so no state changes),
and an empty `apppool_best_active_nodes` stores 0. -/
def appPoolImportExtract (d : AppPoolData) (o : JObj) : Option AppPoolData :=
  (asString (jget o "apppool_name")).bind fun nm =>
  (asString (jget o "appapplication_name")).bind fun app =>
  (asString (jget o "appapplication_fqdn")).bind fun fq =>
  (asString (jget o "apppool_lb_mode")).bind fun lb =>
  (asString (jget o "apppool_affinity_state")).bind fun aff =>
  let d1 := { d with name := nm, application := app, fqdn := fq, lb_mode := lb }
  (if aff = "0" then some d1
   else ((asString (jget o "apppool_affinity_session_time")).map
     (fun st => { d1 with affinity_session_duration := atoiIgn st }))).bind fun d2 =>
  (asString (jget o "apppool_best_active_nodes")).bind fun ban =>
  some (if ban ≠ "" then { d2 with best_active_nodes := atoiIgn ban }
        else { d2 with best_active_nodes := 0 })

/-- `resourceapplicationpoolImportState`: GET on `rest/app_pool_info`; every
failure returns a `nil` slice together with a non-nil error (note the
"SOLIDServer - " message prefix used by this handler). -/
def resourceapplicationpoolImportState (v : Int) (d : AppPoolData) (r : ReqResult) :
    Option (ImportOut AppPoolData) :=
  if v < 710 then
    some ⟨d, false, some ("SOLIDServer - " ++ versionErr), none⟩
  else
    let req : HttpReq := ⟨"get", "rest/app_pool_info", [("apppool_id", d.rid)]⟩
    match r with
    | .transportErr e => some ⟨d, false, some e, some req⟩
    | .ok st buf =>
      match buf with
      | [] =>
        some ⟨d, false,
          some ("SOLIDServer - Unable to find and import application pool (oid): " ++
            d.rid ++ "\n"), some req⟩
      | b0 :: _ =>
        if st = 200 then
          match appPoolImportExtract d b0 with
          | some d' => some ⟨d', true, none, some req⟩
          | none => none
        else
          some ⟨d, false,
            some ("SOLIDServer - Unable to find and import application pool (oid): " ++
              d.rid ++ "\n"), some req⟩

/-- Sample application pool resource data used for concrete evaluations. -/
def poolSample : AppPoolData :=
  ⟨"7", "pool1", "app1", "app1.example.com", "ipv4", "latency", true, 300, 2⟩

/-! ## String helpers (Go `strings` / `net/url` operations used by the DNS
forward zone resource) -/

/-- Go `strings.Split(s, sep)` for a one-character separator, on character
lists: `splitOnChar c [] = [[]]`, and each occurrence of `c` starts a new
chunk. -/
def splitOnChar (c : Char) : List Char → List (List Char)
  | [] => [[]]
  | x :: xs =>
    if x = c then [] :: splitOnChar c xs
    else
      match splitOnChar c xs with
      | [] => [[x]]
      | y :: ys => (x :: y) :: ys

/-- Go `strings.Split(s, String.singleton c)` on strings. -/
def goSplit (s : String) (c : Char) : List String :=
  (splitOnChar c s.data).map String.mk

/-- Go `strings.TrimSuffix(s, ";")`: drop one trailing `';'` when present. -/
def goTrimSuffixSemi (s : String) : String :=
  if s.data.getLast? = some ';' then String.mk s.data.dropLast else s

/-- The forwarder-list serialization of `resourcednsforwardzoneCreate` /
`Update`: each forwarder followed by a `';'`
(`fwdList += fwd + ";"` in a loop). -/
def serializeForwarders (l : List String) : String :=
  l.foldl (fun acc fwd => acc ++ fwd ++ ";") ""

/-- The forwarder-list deserialization of `resourcednsforwardzoneRead` /
`ImportState`:
`strings.Split(strings.TrimSuffix(x, ";"), ";")`. -/
def deserializeForwarders (s : String) : List String :=
  goSplit (goTrimSuffixSemi s) ';'

/-- Go `strings.Cut(piece, "=")` on character lists, as used by
`url.ParseQuery`: the part before the first `'='` and the part after it
(everything, and `[]`, when there is no `'='`). -/
def cutEq : List Char → List Char × List Char
  | [] => ([], [])
  | c :: cs =>
    if c = '=' then ([], cs)
    else
      let p := cutEq cs
      (c :: p.1, p.2)

/-- Append one `key=value` binding to a `url.Values` map, keeping keys in
first-appearance order and values in appearance order. -/
def addQVal (m : List (String × List String)) (k v : String) :
    List (String × List String) :=
  match m with
  | [] => [(k, [v])]
  | (k', vs) :: rest =>
    if k' = k then (k', vs ++ [v]) :: rest else (k', vs) :: addQVal rest k v

/-- Models Go `url.ParseQuery` on the fragment the provider relies on: split
on `'&'`, drop empty pieces, cut each piece at the first `'='`, group values
by key.  Percent-escaping and the error return (which the Go code discards)
are not modelled. -/
def parseQuery (s : String) : List (String × List String) :=
  ((splitOnChar '&' s.data).filter (fun p => p ≠ [])).foldl
    (fun m piece =>
      let kv := cutEq piece
      addQVal m (String.mk kv.1) (String.mk kv.2))
    []

/-- First value bound to a key in a `url.Values` map (`retrieved[ck]` with
the comma-ok existence test). -/
def lookupVals (m : List (String × List String)) (k : String) : Option (List String) :=
  match m with
  | [] => none
  | (k', vs) :: rest => if k' = k then some vs else lookupVals rest k

/-- The class-parameter recomputation of `resourcednsforwardzoneRead` /
`ImportState` (source order): delete the server-internal key `"dnsptr"` from
the retrieved map, then give every current local key the first retrieved
value when one exists and `""` otherwise.  `rv.headD ""` renders Go's
`rv[0]`: `url.ParseQuery` never binds a key to an empty value slice. -/
def computeClassParameters (currentKeys : List String)
    (retrieved : List (String × List String)) : List (String × String) :=
  let retained := retrieved.filter (fun p => p.1 != "dnsptr")
  currentKeys.foldl
    (fun acc ck =>
      match lookupVals retained ck with
      | some rv => acc ++ [(ck, rv.headD "")]
      | none => acc ++ [(ck, "")])
    []

/-- Modelled from the spec: the helper `urlfromclassparams` followed by
`url.Values.Encode` (neither is in the provided sources) performs the
"nested key/value encoding" of the class-parameters map into a query string;
`Encode` emits `k=v` pairs joined by `'&'` in sorted key order.
Percent-escaping is not modelled. -/
def encodeClassParams (m : List (String × String)) : String :=
  String.intercalate "&"
    ((m.mergeSort (fun a b => a.1 ≤ b.1)).map (fun p => p.1 ++ "=" ++ p.2))

/-! ## The DNS forward zone resource (`resourcednsforwardzone`)

Schema fields: `dnsserver`, `dnsview`, `name`, `forward`, `forwarders`,
`class` (rendered `class_`, a Lean keyword), `class_parameters`; `rid`
models `d.Id()`. -/

structure DnsZoneData where
  rid : String
  dnsserver : String
  dnsview : String
  name : String
  forward : String
  forwarders : List String
  class_ : String
  class_parameters : List (String × String)
deriving DecidableEq, Repr

/-- Parameters built by `resourcednsforwardzoneCreate` (source order);
`dnsview_name` is only sent when the view differs from the `"#"` default. -/
def resourcednsforwardzoneCreateParams (d : DnsZoneData) : List (String × String) :=
  [("add_flag", "new_only"), ("dns_name", d.dnsserver)]
  ++ (if d.dnsview ≠ "#" then [("dnsview_name", d.dnsview)] else [])
  ++ [("dnszone_name", d.name), ("dnszone_type", "forward"),
      ("dnszone_class_name", d.class_),
      ("dnszone_forward", d.forward.toLower),
      ("dnszone_forwarders", serializeForwarders d.forwarders),
      ("dnszone_class_parameters", encodeClassParams d.class_parameters)]

/-- Parameters built by `resourcednsforwardzoneUpdate` (source order): the
ForceNew fields (`dns_name`, `dnsview_name`, `dnszone_name`,
`dnszone_type`) are not sent. -/
def resourcednsforwardzoneUpdateParams (d : DnsZoneData) : List (String × String) :=
  [("dnszone_id", d.rid), ("add_flag", "edit_only"),
   ("dnszone_class_name", d.class_),
   ("dnszone_forward", d.forward.toLower),
   ("dnszone_forwarders", serializeForwarders d.forwarders),
   ("dnszone_class_parameters", encodeClassParams d.class_parameters)]

/-- `resourcednsforwardzoneCreate`: POST on `rest/dns_zone_add`. -/
def resourcednsforwardzoneCreate (d : DnsZoneData) (r : ReqResult) :
    Outcome DnsZoneData :=
  let req : HttpReq := ⟨"post", "rest/dns_zone_add", resourcednsforwardzoneCreateParams d⟩
  match r with
  | .transportErr e => ⟨d, some e, some req⟩
  | .ok st buf =>
    match buf with
    | [] => ⟨d, some ("Unable to create DNS forward zone: " ++ d.name ++ "\n"), some req⟩
    | b0 :: _ =>
      match (if st = 200 ∨ st = 201 then asString (jget b0 "ret_oid") else none) with
      | some oid => ⟨{ d with rid := oid }, none, some req⟩
      | none =>
        match asStringOk (jget b0 "errmsg") with
        | (e, true) =>
          ⟨d, some ("Unable to create DNS forward zone: " ++ d.name ++ " (" ++ e ++ ")"),
            some req⟩
        | (_, false) =>
          ⟨d, some ("Unable to create DNS forward zone: " ++ d.name ++ "\n"), some req⟩

/-- `resourcednsforwardzoneUpdate`: PUT on `rest/dns_zone_add`. -/
def resourcednsforwardzoneUpdate (d : DnsZoneData) (r : ReqResult) :
    Outcome DnsZoneData :=
  let req : HttpReq := ⟨"put", "rest/dns_zone_add", resourcednsforwardzoneUpdateParams d⟩
  match r with
  | .transportErr e => ⟨d, some e, some req⟩
  | .ok st buf =>
    match buf with
    | [] => ⟨d, some ("Unable to update DNS forward zone: " ++ d.name ++ "\n"), some req⟩
    | b0 :: _ =>
      match (if st = 200 ∨ st = 201 then asString (jget b0 "ret_oid") else none) with
      | some oid => ⟨{ d with rid := oid }, none, some req⟩
      | none =>
        match asStringOk (jget b0 "errmsg") with
        | (e, true) =>
          ⟨d, some ("Unable to update DNS forward zone: " ++ d.name ++ " (" ++ e ++ ")"),
            some req⟩
        | (_, false) =>
          ⟨d, some ("Unable to update DNS forward zone: " ++ d.name ++ "\n"), some req⟩

/-- `resourcednsforwardzoneDelete`: DELETE on `rest/dns_zone_delete`;
statuses other than 200/204 are failures, 200/204 clears the local id. -/
def resourcednsforwardzoneDelete (d : DnsZoneData) (r : ReqResult) :
    Outcome DnsZoneData :=
  let req : HttpReq := ⟨"delete", "rest/dns_zone_delete", [("dnszone_id", d.rid)]⟩
  match r with
  | .transportErr e => ⟨d, some e, some req⟩
  | .ok st buf =>
    if st ≠ 200 ∧ st ≠ 204 then
      match buf with
      | [] => ⟨d, some ("Unable to delete DNS forward zone: " ++ d.name), some req⟩
      | b0 :: _ =>
        match asStringOk (jget b0 "errmsg") with
        | (e, true) =>
          ⟨d, some ("Unable to delete DNS forward zone: " ++ d.name ++ " (" ++ e ++ ")"),
            some req⟩
        | (_, false) => ⟨d, some ("Unable to delete DNS forward zone: " ++ d.name), some req⟩
    else ⟨{ d with rid := "" }, none, some req⟩

/-- The field extraction performed by `resourcednsforwardzoneRead` on a
status-200 non-empty answer; each `asString` is an unchecked `.(string)`
assertion, so a `none` result models a panic.  An empty `dnszone_forward`
stores `"none"`; an empty `dnszone_forwarders` leaves the local list
untouched. -/
def dnsZoneReadExtract (d : DnsZoneData) (o : JObj) : Option DnsZoneData :=
  (asString (jget o "dns_name")).bind fun dn =>
  (asString (jget o "dnsview_name")).bind fun dv =>
  (asString (jget o "dnszone_name")).bind fun nm =>
  (asString (jget o "dnszone_forward")).bind fun fw =>
  (asString (jget o "dnszone_forwarders")).bind fun fwds =>
  (asString (jget o "dnszone_class_name")).bind fun cls =>
  (asString (jget o "dnszone_class_parameters")).bind fun cp =>
  some { d with
    dnsserver := dn, dnsview := dv, name := nm,
    forward := if fw = "" then "none" else fw.toLower,
    forwarders := if fwds ≠ "" then deserializeForwarders fwds else d.forwarders,
    class_ := cls,
    class_parameters :=
      computeClassParameters (d.class_parameters.map Prod.fst) (parseQuery cp) }

/-- `resourcednsforwardzoneRead`: GET on `rest/dns_zone_info`.  On an
unresolvable answer the local id is deliberately not unset and an error is
returned; `none` models a panic inside the extraction. -/
def resourcednsforwardzoneRead (d : DnsZoneData) (r : ReqResult) :
    Option (Outcome DnsZoneData) :=
  let req : HttpReq := ⟨"get", "rest/dns_zone_info", [("dnszone_id", d.rid)]⟩
  match r with
  | .transportErr e => some ⟨d, some e, some req⟩
  | .ok st buf =>
    match buf with
    | [] => some ⟨d, some ("Unable to find DNS forward zone: " ++ d.name ++ "\n"), some req⟩
    | b0 :: _ =>
      if st = 200 then
        match dnsZoneReadExtract d b0 with
        | some d' => some ⟨d', none, some req⟩
        | none => none
      else
        some ⟨d, some ("Unable to find DNS forward zone: " ++ d.name ++ "\n"), some req⟩

/-- The field extraction performed by `resourcednsforwardzoneImportState`: as
for Read, plus an unchecked assertion on `dnszone_type` whose
`d.Set("type", _)` targets a key that is not in the schema (the error is
discarded, so nothing is stored). -/
def dnsZoneImportExtract (d : DnsZoneData) (o : JObj) : Option DnsZoneData :=
  (asString (jget o "dns_name")).bind fun dn =>
  (asString (jget o "dnsview_name")).bind fun dv =>
  (asString (jget o "dnszone_name")).bind fun nm =>
  (asString (jget o "dnszone_type")).bind fun _ty =>
  (asString (jget o "dnszone_forward")).bind fun fw =>
  (asString (jget o "dnszone_forwarders")).bind fun fwds =>
  (asString (jget o "dnszone_class_name")).bind fun cls =>
  (asString (jget o "dnszone_class_parameters")).bind fun cp =>
  some { d with
    dnsserver := dn, dnsview := dv, name := nm,
    forward := if fw = "" then "none" else fw.toLower,
    forwarders := if fwds ≠ "" then deserializeForwarders fwds else d.forwarders,
    class_ := cls,
    class_parameters :=
      computeClassParameters (d.class_parameters.map Prod.fst) (parseQuery cp) }

/-- `resourcednsforwardzoneImportState`: GET on `rest/dns_zone_info`; every
failure returns a `nil` slice together with a non-nil error. -/
def resourcednsforwardzoneImportState (d : DnsZoneData) (r : ReqResult) :
    Option (ImportOut DnsZoneData) :=
  let req : HttpReq := ⟨"get", "rest/dns_zone_info", [("dnszone_id", d.rid)]⟩
  match r with
  | .transportErr e => some ⟨d, false, some e, some req⟩
  | .ok st buf =>
    match buf with
    | [] =>
      some ⟨d, false,
        some ("SOLIDServer - Unable to find and import DNS forward zone (oid): " ++
          d.rid ++ "\n"), some req⟩
    | b0 :: _ =>
      if st = 200 then
        match dnsZoneImportExtract d b0 with
        | some d' => some ⟨d', true, none, some req⟩
        | none => none
      else
        some ⟨d, false,
          some ("SOLIDServer - Unable to find and import DNS forward zone (oid): " ++
            d.rid ++ "\n"), some req⟩

/-- Sample DNS forward zone resource data used for concrete evaluations. -/
def zoneSample : DnsZoneData :=
  ⟨"11", "smart.local", "#", "example.com", "only", ["10.0.0.1", "10.0.0.2"], "",
   [("vlan", "12")]⟩

/-- Sample IP-MAC resource data used for concrete evaluations. -/
def ipmacSample : IpMacData :=
  ⟨"42", "space0", "10.0.0.1", "AA:BB:CC:DD:EE:01"⟩

/-- C1: the IP-MAC Create handler, given no transport error, HTTP status 200
and the non-empty response array `[{}]` whose first element has no `ret_oid`
field, returns `nil` diagnostics (success) and leaves the id unset — the code
falls through to `diag.FromErr(nil)` instead of reporting an error. -/
theorem ipmac_create_silent_success :
    (resourceipmacCreate ipmacSample (.ok 200 [[]])).diags = none ∧
    (resourceipmacCreate ipmacSample (.ok 200 [[]])).state.rid = "42" :=
  ⟨rfl, rfl⟩

/-- C2 counterexample: the IP-MAC Read handler, given no transport error and
an unresolvable answer (status 404, empty array), sets the stored id to the
empty string and returns `nil` diagnostics — the claim says the id is left
unchanged and a failure is reported. -/
theorem ipmac_read_clears_id :
    (resourceipmacRead ipmacSample (.ok 404 [])).state.rid = "" ∧
    (resourceipmacRead ipmacSample (.ok 404 [])).diags = none :=
  ⟨rfl, rfl⟩

/-- C3 counterexample: the IP-MAC Delete handler issues a PUT on `rest/ip_add`
(not a delete verb on a delete path), and on HTTP status 204 (claimed to be a
success) it returns an error. -/
theorem ipmac_delete_not_delete_verb :
    ((resourceipmacDelete ipmacSample (.ok 204 [[("ret_oid", JValue.str "42")]])).req.map
      (fun q => (q.verb, q.path))) = some ("put", "rest/ip_add") ∧
    (resourceipmacDelete ipmacSample
      (.ok 204 [[("ret_oid", JValue.str "42")]])).diags ≠ none := by
  constructor
  · rfl
  · intro h
    simp [resourceipmacDelete, ipmacSample] at h

/-! ## Theorems about the claims -/

/-- C9 counterexample: at version 700 the application pool Import handler does
fail, but its error message is "SOLIDServer - Object not supported in this
SOLIDserver version", not the claimed "Object not supported in this
SOLIDserver version". -/
theorem pool_import_version_message_mismatch :
    ((resourceapplicationpoolImportState 700 poolSample (.ok 200 [])).map
      (fun o => o.errM))
      = some (some "SOLIDServer - Object not supported in this SOLIDserver version") ∧
    ((resourceapplicationpoolImportState 700 poolSample (.ok 200 [])).map
      (fun o => o.errM))
      ≠ some (some "Object not supported in this SOLIDserver version") := by
  constructor
  · rfl
  · decide

/-- C9 (amended): when the configured version is below 710, every application
pool handler returns the "Object not supported in this SOLIDserver version"
error — with a "SOLIDServer - " prefix in the Import handler — without
issuing any HTTP request and without modifying the local state. -/
theorem pool_version_guard (v : Int) (hv : v < 710) (d : AppPoolData) (r : ReqResult) :
    resourceapplicationpoolCreate v d r = ⟨d, some versionErr, none⟩ ∧
    resourceapplicationpoolUpdate v d r = ⟨d, some versionErr, none⟩ ∧
    resourceapplicationpoolDelete v d r = ⟨d, some versionErr, none⟩ ∧
    resourceapplicationpoolRead v d r = some ⟨d, some versionErr, none⟩ ∧
    resourceapplicationpoolImportState v d r =
      some ⟨d, false, some ("SOLIDServer - " ++ versionErr), none⟩ := by
  refine ⟨?_, ?_, ?_, ?_, ?_⟩ <;>
    simp [resourceapplicationpoolCreate, resourceapplicationpoolUpdate,
      resourceapplicationpoolDelete, resourceapplicationpoolRead,
      resourceapplicationpoolImportState, hv]

/-- Witness for `pool_version_guard` at version 700. -/
theorem pool_version_guard_witness :
    resourceapplicationpoolCreate 700 poolSample (.ok 200 []) =
      ⟨poolSample, some versionErr, none⟩ ∧
    resourceapplicationpoolUpdate 700 poolSample (.ok 200 []) =
      ⟨poolSample, some versionErr, none⟩ ∧
    resourceapplicationpoolDelete 700 poolSample (.ok 200 []) =
      ⟨poolSample, some versionErr, none⟩ ∧
    resourceapplicationpoolRead 700 poolSample (.ok 200 []) =
      some ⟨poolSample, some versionErr, none⟩ ∧
    resourceapplicationpoolImportState 700 poolSample (.ok 200 []) =
      some ⟨poolSample, false, some ("SOLIDServer - " ++ versionErr), none⟩ :=
  pool_version_guard 700 (by decide) poolSample (.ok 200 [])

/-- C2 (amended): for the application pool and DNS forward zone Read handlers,
when the HTTP call completes without transport error but the object cannot be
resolved (non-200 status or empty array), the stored id is left unchanged and
the handler reports failure.  (The IP-MAC Read instead clears the id and
returns nil: see `ipmac_read_clears_id`.) -/
theorem pool_zone_read_failure_preserves_id (v : Int) (dp : AppPoolData)
    (dz : DnsZoneData) (st : Int) (buf : List JObj) (h : ¬(st = 200 ∧ buf ≠ [])) :
    (resourceapplicationpoolRead v dp (.ok st buf)).map
      (fun o => (o.state.rid, o.diags.isSome)) = some (dp.rid, true) ∧
    (resourcednsforwardzoneRead dz (.ok st buf)).map
      (fun o => (o.state.rid, o.diags.isSome)) = some (dz.rid, true) := by
  constructor
  · by_cases hv : v < 710
    · simp [resourceapplicationpoolRead, hv]
    · cases buf with
      | nil => simp [resourceapplicationpoolRead, hv]
      | cons b rest =>
        have hst : ¬ st = 200 := fun he => h ⟨he, by simp⟩
        simp [resourceapplicationpoolRead, hv, hst]
  · cases buf with
    | nil => simp [resourcednsforwardzoneRead]
    | cons b rest =>
      have hst : ¬ st = 200 := fun he => h ⟨he, by simp⟩
      simp [resourcednsforwardzoneRead, hst]

/-- Witness for `pool_zone_read_failure_preserves_id` at status 404 with an
empty response array. -/
theorem pool_zone_read_failure_preserves_id_witness :
    (resourceapplicationpoolRead 800 poolSample (.ok 404 [])).map
      (fun o => (o.state.rid, o.diags.isSome)) = some (poolSample.rid, true) ∧
    (resourcednsforwardzoneRead zoneSample (.ok 404 [])).map
      (fun o => (o.state.rid, o.diags.isSome)) = some (zoneSample.rid, true) :=
  pool_zone_read_failure_preserves_id 800 poolSample zoneSample 404 [] (by decide)

/-- C3 (amended): the application pool and DNS forward zone Delete handlers
issue the delete verb on the resource's delete path carrying the object id
and, absent a transport error (and for the pool with version at least 710),
succeed exactly on HTTP status 200 or 204; the IP-MAC Delete instead issues a
PUT on `rest/ip_add`. -/
theorem pool_zone_delete_success_iff (v : Int) (hv : 710 ≤ v) (dp : AppPoolData)
    (dz : DnsZoneData) (di : IpMacData) (st : Int) (buf : List JObj) :
    (resourceapplicationpoolDelete v dp (.ok st buf)).req
      = some ⟨"delete", "rest/app_pool_delete", [("apppool_id", dp.rid)]⟩ ∧
    ((resourceapplicationpoolDelete v dp (.ok st buf)).diags = none ↔
      st = 200 ∨ st = 204) ∧
    (resourcednsforwardzoneDelete dz (.ok st buf)).req
      = some ⟨"delete", "rest/dns_zone_delete", [("dnszone_id", dz.rid)]⟩ ∧
    ((resourcednsforwardzoneDelete dz (.ok st buf)).diags = none ↔
      st = 200 ∨ st = 204) ∧
    ((resourceipmacDelete di (.ok st buf)).req.map (fun q => (q.verb, q.path)))
      = some ("put", "rest/ip_add") := by
  have hv' : ¬ v < 710 := not_lt.mpr hv
  refine ⟨?_, ?_, ?_, ?_, ?_⟩
  · by_cases hc : st ≠ 200 ∧ st ≠ 204
    · cases buf with
      | nil => simp [resourceapplicationpoolDelete, hv', hc]
      | cons b rest =>
        rcases he : asStringOk (jget b "errmsg") with ⟨e, eb⟩
        cases eb <;> simp [resourceapplicationpoolDelete, hv', hc, he]
    · simp [resourceapplicationpoolDelete, hv', hc]
  · by_cases hc : st ≠ 200 ∧ st ≠ 204
    · have hr : ¬ (st = 200 ∨ st = 204) := by tauto
      cases buf with
      | nil => simp [resourceapplicationpoolDelete, hv', hc, hr]
      | cons b rest =>
        rcases he : asStringOk (jget b "errmsg") with ⟨e, eb⟩
        cases eb <;> simp [resourceapplicationpoolDelete, hv', hc, he, hr]
    · have hr : st = 200 ∨ st = 204 := by tauto
      simp [resourceapplicationpoolDelete, hv', hc, hr]
  · by_cases hc : st ≠ 200 ∧ st ≠ 204
    · cases buf with
      | nil => simp [resourcednsforwardzoneDelete, hc]
      | cons b rest =>
        rcases he : asStringOk (jget b "errmsg") with ⟨e, eb⟩
        cases eb <;> simp [resourcednsforwardzoneDelete, hc, he]
    · simp [resourcednsforwardzoneDelete, hc]
  · by_cases hc : st ≠ 200 ∧ st ≠ 204
    · have hr : ¬ (st = 200 ∨ st = 204) := by tauto
      cases buf with
      | nil => simp [resourcednsforwardzoneDelete, hc, hr]
      | cons b rest =>
        rcases he : asStringOk (jget b "errmsg") with ⟨e, eb⟩
        cases eb <;> simp [resourcednsforwardzoneDelete, hc, he, hr]
    · have hr : st = 200 ∨ st = 204 := by tauto
      simp [resourcednsforwardzoneDelete, hc, hr]
  · cases buf with
    | nil => simp [resourceipmacDelete]
    | cons b rest =>
      by_cases hs : st = 200 ∨ st = 201
      · rcases ho : asString (jget b "ret_oid") with _ | o <;>
          simp [resourceipmacDelete, hs, ho]
      · simp [resourceipmacDelete, hs]

/-- Witness for `pool_zone_delete_success_iff` at version 800, status 204. -/
theorem pool_zone_delete_success_iff_witness :
    (resourceapplicationpoolDelete 800 poolSample (.ok 204 [])).req
      = some ⟨"delete", "rest/app_pool_delete", [("apppool_id", poolSample.rid)]⟩ ∧
    ((resourceapplicationpoolDelete 800 poolSample (.ok 204 [])).diags = none ↔
      (204 : Int) = 200 ∨ (204 : Int) = 204) ∧
    (resourcednsforwardzoneDelete zoneSample (.ok 204 [])).req
      = some ⟨"delete", "rest/dns_zone_delete", [("dnszone_id", zoneSample.rid)]⟩ ∧
    ((resourcednsforwardzoneDelete zoneSample (.ok 204 [])).diags = none ↔
      (204 : Int) = 200 ∨ (204 : Int) = 204) ∧
    ((resourceipmacDelete ipmacSample (.ok 204 [])).req.map (fun q => (q.verb, q.path)))
      = some ("put", "rest/ip_add") :=
  pool_zone_delete_success_iff 800 (by decide) poolSample zoneSample ipmacSample 204 []

/-- Replace the value of the `add_flag` parameter by `edit_only`. -/
def substEditFlag (ps : List (String × String)) : List (String × String) :=
  ps.map (fun p => if p.1 = "add_flag" then (p.1, "edit_only") else p)

/-- The ForceNew DNS zone parameters that Create sends and Update omits. -/
def zoneForceNewKeys : List String :=
  ["dns_name", "dnsview_name", "dnszone_name", "dnszone_type"]

/-- C5 counterexample: for a concrete field set, the DNS forward zone Update
does not build the same form parameters as Create: Create sends `dns_name`
and Update does not. -/
theorem zone_update_params_not_same :
    ((resourcednsforwardzoneCreateParams zoneSample).map Prod.fst).contains "dns_name"
      = true ∧
    ((resourcednsforwardzoneUpdateParams zoneSample).map Prod.fst).contains "dns_name"
      = false := by
  constructor <;> rfl

/-- C5 (amended): the application pool Update builds exactly the Create
parameters with the stored id prepended and `edit_only` substituted for
`new_only`, while the DNS forward zone Update does the same after dropping
the ForceNew parameters (`dns_name`, `dnsview_name`, `dnszone_name`,
`dnszone_type`); both Updates issue a PUT to the same add endpoint their
Create POSTs to. -/
theorem update_params_relation (v : Int) (hv : 710 ≤ v) (dp : AppPoolData)
    (dz : DnsZoneData) (r : ReqResult) :
    resourceapplicationpoolUpdateParams dp
      = ("apppool_id", dp.rid) :: substEditFlag (resourceapplicationpoolCreateParams dp) ∧
    resourcednsforwardzoneUpdateParams dz
      = ("dnszone_id", dz.rid) ::
        substEditFlag ((resourcednsforwardzoneCreateParams dz).filter
          (fun p => p.1 ∉ zoneForceNewKeys)) ∧
    (resourceapplicationpoolUpdate v dp r).req
      = some ⟨"put", "rest/app_pool_add", resourceapplicationpoolUpdateParams dp⟩ ∧
    (resourceapplicationpoolCreate v dp r).req
      = some ⟨"post", "rest/app_pool_add", resourceapplicationpoolCreateParams dp⟩ ∧
    (resourcednsforwardzoneUpdate dz r).req
      = some ⟨"put", "rest/dns_zone_add", resourcednsforwardzoneUpdateParams dz⟩ ∧
    (resourcednsforwardzoneCreate dz r).req
      = some ⟨"post", "rest/dns_zone_add", resourcednsforwardzoneCreateParams dz⟩ := by
  have hv' : ¬ v < 710 := not_lt.mpr hv
  refine ⟨?_, ?_, ?_, ?_, ?_, ?_⟩
  · cases haff : dp.affinity <;> by_cases hlb : dp.lb_mode = "latency" <;>
      simp [resourceapplicationpoolUpdateParams, resourceapplicationpoolCreateParams,
        substEditFlag, haff, hlb]
  · by_cases hview : dz.dnsview = "#" <;>
      simp [resourcednsforwardzoneUpdateParams, resourcednsforwardzoneCreateParams,
        substEditFlag, zoneForceNewKeys, hview, List.filter]
  · cases r with
    | transportErr e => simp [resourceapplicationpoolUpdate, hv']
    | ok st buf =>
      cases buf with
      | nil => simp [resourceapplicationpoolUpdate, hv']
      | cons b rest =>
        rcases ho : (if st = 200 ∨ st = 201 then asString (jget b "ret_oid") else none)
          with _ | o
        · rcases he : asStringOk (jget b "errmsg") with ⟨e, eb⟩
          cases eb <;> simp [resourceapplicationpoolUpdate, hv', ho, he]
        · simp [resourceapplicationpoolUpdate, hv', ho]
  · cases r with
    | transportErr e => simp [resourceapplicationpoolCreate, hv']
    | ok st buf =>
      cases buf with
      | nil => simp [resourceapplicationpoolCreate, hv']
      | cons b rest =>
        rcases ho : (if st = 200 ∨ st = 201 then asString (jget b "ret_oid") else none)
          with _ | o
        · rcases he : asStringOk (jget b "errmsg") with ⟨e, eb⟩
          cases eb <;> simp [resourceapplicationpoolCreate, hv', ho, he]
        · simp [resourceapplicationpoolCreate, hv', ho]
  · cases r with
    | transportErr e => simp [resourcednsforwardzoneUpdate]
    | ok st buf =>
      cases buf with
      | nil => simp [resourcednsforwardzoneUpdate]
      | cons b rest =>
        rcases ho : (if st = 200 ∨ st = 201 then asString (jget b "ret_oid") else none)
          with _ | o
        · rcases he : asStringOk (jget b "errmsg") with ⟨e, eb⟩
          cases eb <;> simp [resourcednsforwardzoneUpdate, ho, he]
        · simp [resourcednsforwardzoneUpdate, ho]
  · cases r with
    | transportErr e => simp [resourcednsforwardzoneCreate]
    | ok st buf =>
      cases buf with
      | nil => simp [resourcednsforwardzoneCreate]
      | cons b rest =>
        rcases ho : (if st = 200 ∨ st = 201 then asString (jget b "ret_oid") else none)
          with _ | o
        · rcases he : asStringOk (jget b "errmsg") with ⟨e, eb⟩
          cases eb <;> simp [resourcednsforwardzoneCreate, ho, he]
        · simp [resourcednsforwardzoneCreate, ho]

/-- Witness for `update_params_relation` at version 800 on the sample data. -/
theorem update_params_relation_witness :
    resourceapplicationpoolUpdateParams poolSample
      = ("apppool_id", poolSample.rid) ::
        substEditFlag (resourceapplicationpoolCreateParams poolSample) ∧
    resourcednsforwardzoneUpdateParams zoneSample
      = ("dnszone_id", zoneSample.rid) ::
        substEditFlag ((resourcednsforwardzoneCreateParams zoneSample).filter
          (fun p => p.1 ∉ zoneForceNewKeys)) ∧
    (resourceapplicationpoolUpdate 800 poolSample (.ok 200 [])).req
      = some ⟨"put", "rest/app_pool_add", resourceapplicationpoolUpdateParams poolSample⟩ ∧
    (resourceapplicationpoolCreate 800 poolSample (.ok 200 [])).req
      = some ⟨"post", "rest/app_pool_add", resourceapplicationpoolCreateParams poolSample⟩ ∧
    (resourcednsforwardzoneUpdate zoneSample (.ok 200 [])).req
      = some ⟨"put", "rest/dns_zone_add", resourcednsforwardzoneUpdateParams zoneSample⟩ ∧
    (resourcednsforwardzoneCreate zoneSample (.ok 200 [])).req
      = some ⟨"post", "rest/dns_zone_add", resourcednsforwardzoneCreateParams zoneSample⟩ :=
  update_params_relation 800 (by decide) poolSample zoneSample (.ok 200 [])

/-- C6: every Import failure is a hard error: any returned pair either is the
success pair (the resource-data slice with a nil error) or carries a nil
slice together with a non-nil error; no failure path returns a nil error. -/
theorem import_failure_is_hard_error (v : Int) (dp : AppPoolData) (dz : DnsZoneData)
    (r : ReqResult) (op : ImportOut AppPoolData) (oz : ImportOut DnsZoneData)
    (hp : resourceapplicationpoolImportState v dp r = some op)
    (hz : resourcednsforwardzoneImportState dz r = some oz) :
    ((op.returned = true ∧ op.errM = none) ∨ (op.returned = false ∧ op.errM ≠ none)) ∧
    ((oz.returned = true ∧ oz.errM = none) ∨ (oz.returned = false ∧ oz.errM ≠ none)) := by
  constructor
  · unfold resourceapplicationpoolImportState at hp
    split at hp
    · injection hp with h; subst h; right; exact ⟨rfl, by simp⟩
    · cases r with
      | transportErr e => injection hp with h; subst h; right; exact ⟨rfl, by simp⟩
      | ok st buf =>
        cases buf with
        | nil => injection hp with h; subst h; right; exact ⟨rfl, by simp⟩
        | cons b rest =>
          dsimp at hp
          by_cases hs : st = 200
          · rw [if_pos hs] at hp
            rcases he : appPoolImportExtract dp b with _ | d'
            · rw [he] at hp; cases hp
            · rw [he] at hp; injection hp with h; subst h; left; exact ⟨rfl, rfl⟩
          · rw [if_neg hs] at hp
            injection hp with h; subst h; right; exact ⟨rfl, by simp⟩
  · unfold resourcednsforwardzoneImportState at hz
    cases r with
    | transportErr e => injection hz with h; subst h; right; exact ⟨rfl, by simp⟩
    | ok st buf =>
      cases buf with
      | nil => injection hz with h; subst h; right; exact ⟨rfl, by simp⟩
      | cons b rest =>
        dsimp at hz
        by_cases hs : st = 200
        · rw [if_pos hs] at hz
          rcases he : dnsZoneImportExtract dz b with _ | d'
          · rw [he] at hz; cases hz
          · rw [he] at hz; injection hz with h; subst h; left; exact ⟨rfl, rfl⟩
        · rw [if_neg hs] at hz
          injection hz with h; subst h; right; exact ⟨rfl, by simp⟩

/-- The application pool Import output at version 700 (version-guard
failure). -/
def importFailPoolSample : ImportOut AppPoolData :=
  ⟨poolSample, false, some ("SOLIDServer - " ++ versionErr), none⟩

/-- The DNS zone Import output on a 404 answer with an empty array. -/
def importFailZoneSample : ImportOut DnsZoneData :=
  ⟨zoneSample, false,
    some "SOLIDServer - Unable to find and import DNS forward zone (oid): 11\n",
    some ⟨"get", "rest/dns_zone_info", [("dnszone_id", "11")]⟩⟩

/-- Witness for `import_failure_is_hard_error` on two concrete failures. -/
theorem import_failure_is_hard_error_witness :
    ((importFailPoolSample.returned = true ∧ importFailPoolSample.errM = none) ∨
      (importFailPoolSample.returned = false ∧ importFailPoolSample.errM ≠ none)) ∧
    ((importFailZoneSample.returned = true ∧ importFailZoneSample.errM = none) ∨
      (importFailZoneSample.returned = false ∧ importFailZoneSample.errM ≠ none)) :=
  import_failure_is_hard_error 700 poolSample zoneSample (.ok 404 [])
    importFailPoolSample importFailZoneSample rfl rfl

/-- C4: interpretation of a Create answer that arrives without transport
error, for the application pool and DNS forward zone Creates.  On status
200/201 with a first element carrying a string `ret_oid`, the id is stored
and success returned (`b0`); otherwise an application error is returned that
carries the first element's `errmsg` when that field is a string (`b1`, on a
bad status or on a good status without `ret_oid`) and a generic message when
it is not (`b2`) or when the array is empty. -/
theorem create_response_interpretation (v : Int) (hv : 710 ≤ v)
    (dp : AppPoolData) (dz : DnsZoneData) (st st' : Int)
    (hst : st = 200 ∨ st = 201) (hst' : ¬(st' = 200 ∨ st' = 201))
    (b0 b1 b2 : JObj) (rest : List JObj) (oid e1 e2 : String)
    (hoid : asString (jget b0 "ret_oid") = some oid)
    (hnoid : asString (jget b1 "ret_oid") = none)
    (he1 : asStringOk (jget b1 "errmsg") = (e1, true))
    (he2 : asStringOk (jget b2 "errmsg") = (e2, false)) :
    ((resourceapplicationpoolCreate v dp (.ok st (b0 :: rest))).diags = none ∧
      (resourceapplicationpoolCreate v dp (.ok st (b0 :: rest))).state.rid = oid) ∧
    (resourceapplicationpoolCreate v dp (.ok st' (b1 :: rest))).diags
      = some ("Unable to create application pool: " ++ dp.name ++ " (" ++ e1 ++ ")") ∧
    (resourceapplicationpoolCreate v dp (.ok st (b1 :: rest))).diags
      = some ("Unable to create application pool: " ++ dp.name ++ " (" ++ e1 ++ ")") ∧
    (resourceapplicationpoolCreate v dp (.ok st' (b2 :: rest))).diags
      = some ("Unable to create application pool: " ++ dp.name ++ "\n") ∧
    (resourceapplicationpoolCreate v dp (.ok st [])).diags
      = some ("Unable to create application pool: " ++ dp.name ++ "\n") ∧
    ((resourcednsforwardzoneCreate dz (.ok st (b0 :: rest))).diags = none ∧
      (resourcednsforwardzoneCreate dz (.ok st (b0 :: rest))).state.rid = oid) ∧
    (resourcednsforwardzoneCreate dz (.ok st' (b1 :: rest))).diags
      = some ("Unable to create DNS forward zone: " ++ dz.name ++ " (" ++ e1 ++ ")") ∧
    (resourcednsforwardzoneCreate dz (.ok st (b1 :: rest))).diags
      = some ("Unable to create DNS forward zone: " ++ dz.name ++ " (" ++ e1 ++ ")") ∧
    (resourcednsforwardzoneCreate dz (.ok st' (b2 :: rest))).diags
      = some ("Unable to create DNS forward zone: " ++ dz.name ++ "\n") ∧
    (resourcednsforwardzoneCreate dz (.ok st [])).diags
      = some ("Unable to create DNS forward zone: " ++ dz.name ++ "\n") := by
  have hv' : ¬ v < 710 := not_lt.mpr hv
  refine ⟨⟨?_, ?_⟩, ?_, ?_, ?_, ?_, ⟨?_, ?_⟩, ?_, ?_, ?_, ?_⟩ <;>
    simp [resourceapplicationpoolCreate, resourcednsforwardzoneCreate, hv',
      hst, hst', hoid, hnoid, he1, he2]

/-- A response first element with a string `ret_oid`. -/
def oidObj : JObj := [("ret_oid", JValue.str "99")]

/-- A response first element with a string `errmsg` and no `ret_oid`. -/
def errObj : JObj := [("errmsg", JValue.str "boom")]

/-- Witness for `create_response_interpretation` at version 800 with statuses
200 and 404 and concrete response elements. -/
theorem create_response_interpretation_witness :
    ((resourceapplicationpoolCreate 800 poolSample (.ok 200 [oidObj])).diags = none ∧
      (resourceapplicationpoolCreate 800 poolSample (.ok 200 [oidObj])).state.rid = "99") ∧
    (resourceapplicationpoolCreate 800 poolSample (.ok 404 [errObj])).diags
      = some ("Unable to create application pool: " ++ poolSample.name ++ " (" ++ "boom" ++ ")") ∧
    (resourceapplicationpoolCreate 800 poolSample (.ok 200 [errObj])).diags
      = some ("Unable to create application pool: " ++ poolSample.name ++ " (" ++ "boom" ++ ")") ∧
    (resourceapplicationpoolCreate 800 poolSample (.ok 404 [([] : JObj)])).diags
      = some ("Unable to create application pool: " ++ poolSample.name ++ "\n") ∧
    (resourceapplicationpoolCreate 800 poolSample (.ok 200 [])).diags
      = some ("Unable to create application pool: " ++ poolSample.name ++ "\n") ∧
    ((resourcednsforwardzoneCreate zoneSample (.ok 200 [oidObj])).diags = none ∧
      (resourcednsforwardzoneCreate zoneSample (.ok 200 [oidObj])).state.rid = "99") ∧
    (resourcednsforwardzoneCreate zoneSample (.ok 404 [errObj])).diags
      = some ("Unable to create DNS forward zone: " ++ zoneSample.name ++ " (" ++ "boom" ++ ")") ∧
    (resourcednsforwardzoneCreate zoneSample (.ok 200 [errObj])).diags
      = some ("Unable to create DNS forward zone: " ++ zoneSample.name ++ " (" ++ "boom" ++ ")") ∧
    (resourcednsforwardzoneCreate zoneSample (.ok 404 [([] : JObj)])).diags
      = some ("Unable to create DNS forward zone: " ++ zoneSample.name ++ "\n") ∧
    (resourcednsforwardzoneCreate zoneSample (.ok 200 [])).diags
      = some ("Unable to create DNS forward zone: " ++ zoneSample.name ++ "\n") :=
  create_response_interpretation 800 (by decide) poolSample zoneSample 200 404
    (by decide) (by decide) oidObj errObj [] [] "99" "boom" "" rfl rfl rfl rfl

/-- `(s ++ t).data = s.data ++ t.data` for strings. -/
theorem string_data_append (s t : String) : (s ++ t).data = s.data ++ t.data := by
  cases s; cases t; rfl

/-- `String.mk` is a left inverse of `String.data`. -/
theorem string_mk_data (s : String) : String.mk s.data = s := rfl

/-- Character-level image of the forwarder serialization loop. -/
def serializeFwdChars : List (List Char) → List Char
  | [] => []
  | x :: xs => x ++ ';' :: serializeFwdChars xs

/-- Character lists joined by single `';'` separators (no trailing one). -/
def interSemi : List (List Char) → List Char
  | [] => []
  | [a] => a
  | a :: b :: rest => a ++ ';' :: interSemi (b :: rest)

/-- The forwarder serialization, viewed on characters. -/
theorem serialize_foldl_data (l : List String) (acc : String) :
    (l.foldl (fun a fwd => a ++ fwd ++ ";") acc).data
      = acc.data ++ serializeFwdChars (l.map String.data) := by
  induction l generalizing acc with
  | nil => simp [serializeFwdChars]
  | cons x xs ih =>
    simp only [List.foldl_cons, List.map_cons, serializeFwdChars]
    rw [ih, string_data_append, string_data_append]
    simp

/-- A serialized non-empty forwarder list is the `';'`-interspersed list
followed by one trailing `';'`. -/
theorem serializeFwdChars_eq_inter (l : List (List Char)) (h : l ≠ []) :
    serializeFwdChars l = interSemi l ++ [';'] := by
  induction l with
  | nil => exact absurd rfl h
  | cons a tl ih =>
    cases tl with
    | nil => simp [serializeFwdChars, interSemi]
    | cons b tl' =>
      have hb := ih (by simp)
      simp only [serializeFwdChars, interSemi] at hb ⊢
      rw [hb]
      simp

/-- Splitting a separator-free chunk yields that single chunk. -/
theorem splitOnChar_not_mem (c : Char) (a : List Char) (h : c ∉ a) :
    splitOnChar c a = [a] := by
  induction a with
  | nil => rfl
  | cons x xs ih =>
    have hx : ¬ x = c := fun he => h (he ▸ List.mem_cons_self x xs)
    have hxs : c ∉ xs := fun hm => h (List.mem_cons_of_mem _ hm)
    simp only [splitOnChar, if_neg hx, ih hxs]

/-- Splitting past a leading separator-free chunk peels it off. -/
theorem splitOnChar_append (c : Char) (a t : List Char) (h : c ∉ a) :
    splitOnChar c (a ++ c :: t) = a :: splitOnChar c t := by
  induction a with
  | nil => simp [splitOnChar]
  | cons x xs ih =>
    have hx : ¬ x = c := fun he => h (he ▸ List.mem_cons_self x xs)
    have hxs : c ∉ xs := fun hm => h (List.mem_cons_of_mem _ hm)
    simp only [List.cons_append, splitOnChar, if_neg hx]
    have hrw : splitOnChar c (xs.append (c :: t)) = xs :: splitOnChar c t := ih hxs
    rw [hrw]

/-- Splitting the `';'`-interspersed join of separator-free chunks recovers
the chunks. -/
theorem splitOnChar_interSemi (l : List (List Char)) (hne : l ≠ [])
    (h : ∀ x ∈ l, ';' ∉ x) :
    splitOnChar ';' (interSemi l) = l := by
  induction l with
  | nil => exact absurd rfl hne
  | cons a tl ih =>
    cases tl with
    | nil => simpa [interSemi] using splitOnChar_not_mem ';' a (h a (by simp))
    | cons b tl' =>
      have ha : ';' ∉ a := h a (by simp)
      have htl : ∀ x ∈ b :: tl', ';' ∉ x := fun x hx => h x (List.mem_cons_of_mem _ hx)
      simp only [interSemi]
      rw [splitOnChar_append ';' a _ ha, ih (by simp) htl]

/-- C7: for every non-empty forwarder list whose elements are non-empty and
contain no `';'`, the Create serialization (append `';'` after each element)
composed with the Read deserialization (trim one trailing `';'`, split on
`';'`) is the identity. -/
theorem forwarders_roundtrip (l : List String) (hne : l ≠ [])
    (h : ∀ x ∈ l, x ≠ "" ∧ ';' ∉ x.data) :
    deserializeForwarders (serializeForwarders l) = l := by
  have hmapne : l.map String.data ≠ [] := by
    intro hm
    exact hne (List.map_eq_nil_iff.mp hm)
  have hdata : (serializeForwarders l).data
      = interSemi (l.map String.data) ++ [';'] := by
    rw [show (serializeForwarders l).data = serializeFwdChars (l.map String.data) from by
      simpa using serialize_foldl_data l ""]
    exact serializeFwdChars_eq_inter _ hmapne
  have htrim : goTrimSuffixSemi (serializeForwarders l)
      = String.mk (interSemi (l.map String.data)) := by
    unfold goTrimSuffixSemi
    rw [hdata, if_pos (List.getLast?_concat _), List.dropLast_concat]
  have hfree : ∀ x ∈ l.map String.data, ';' ∉ x := by
    intro x hx
    rcases List.mem_map.mp hx with ⟨y, hy, rfl⟩
    exact (h y hy).2
  unfold deserializeForwarders goSplit
  rw [htrim]
  rw [show (String.mk (interSemi (l.map String.data))).data
      = interSemi (l.map String.data) from rfl]
  rw [splitOnChar_interSemi _ hmapne hfree, List.map_map,
    show (String.mk ∘ String.data) = id from funext (fun s => rfl), List.map_id]

/-- Witness for `forwarders_roundtrip` on a two-element forwarder list. -/
theorem forwarders_roundtrip_witness :
    deserializeForwarders (serializeForwarders ["10.0.0.1", "10.0.0.2"])
      = ["10.0.0.1", "10.0.0.2"] :=
  forwarders_roundtrip ["10.0.0.1", "10.0.0.2"] (by decide) (by decide)

/-- The value C8 assigns to each local class-parameter key: the first
retrieved value for that key after discarding the server-internal key
`"dnsptr"`, and `""` when the key was not retrieved. -/
def classParamSpecValue (retrieved : List (String × List String)) (ck : String) : String :=
  if ck = "dnsptr" then ""
  else
    match lookupVals retrieved ck with
    | some rv => rv.headD ""
    | none => ""

/-- Looking a key up after the `"dnsptr"` deletion: `"dnsptr"` itself is gone
and every other key is unaffected. -/
theorem lookupVals_filter_dnsptr (r : List (String × List String)) (k : String) :
    lookupVals (r.filter (fun p => p.1 != "dnsptr")) k
      = if k = "dnsptr" then none else lookupVals r k := by
  induction r with
  | nil => simp [lookupVals]
  | cons p rest ih =>
    rcases p with ⟨k', vs⟩
    by_cases h1 : k' = "dnsptr"
    · have hf : ((k', vs) :: rest).filter (fun p => p.1 != "dnsptr")
          = rest.filter (fun p => p.1 != "dnsptr") := by
        simp [List.filter_cons, h1]
      rw [hf, ih]
      by_cases h2 : k = "dnsptr"
      · simp [h2]
      · have h2' : ¬ (k' = k) := fun he => h2 (h1 ▸ he.symm)
        simp [h2, lookupVals, h2']
    · have hf : ((k', vs) :: rest).filter (fun p => p.1 != "dnsptr")
          = (k', vs) :: rest.filter (fun p => p.1 != "dnsptr") := by
        simp [List.filter_cons, h1]
      rw [hf, lookupVals]
      by_cases h2 : k' = k
      · have hk : ¬ (k = "dnsptr") := fun he => h1 (h2.trans he)
        simp [h2, hk, lookupVals]
      · rw [if_neg h2, ih]
        by_cases h3 : k = "dnsptr"
        · simp [h3]
        · simp [h3, lookupVals, h2]

/-- The class-parameter loop, rewritten as a `map` over the local keys. -/
theorem computeCP_foldl (retained : List (String × List String)) (ks : List String)
    (acc : List (String × String)) :
    (ks.foldl
      (fun acc ck =>
        match lookupVals retained ck with
        | some rv => acc ++ [(ck, rv.headD "")]
        | none => acc ++ [(ck, "")])
      acc)
    = acc ++ ks.map
        (fun ck =>
          (ck, match lookupVals retained ck with
               | some rv => rv.headD ""
               | none => "")) := by
  induction ks generalizing acc with
  | nil => simp
  | cons k tl ih =>
    rw [List.foldl_cons, List.map_cons]
    rcases h : lookupVals retained k with _ | rv <;>
      · simp only [h]
        rw [ih]
        simp

/-- C8: the recomputed class-parameters map is exactly the current local keys,
in order, each bound to the first retrieved value for that key after the
server-internal `"dnsptr"` entry is removed, and `""` when no value was
retrieved; in particular its key list is exactly the local key list, so
retrieved keys absent from the local map are dropped. -/
theorem class_parameters_recompute (ks : List String) (r : List (String × List String)) :
    computeClassParameters ks r = ks.map (fun ck => (ck, classParamSpecValue r ck)) ∧
    (computeClassParameters ks r).map Prod.fst = ks := by
  have h1 : computeClassParameters ks r
      = ks.map (fun ck => (ck, classParamSpecValue r ck)) := by
    unfold computeClassParameters
    rw [computeCP_foldl]
    simp only [List.nil_append]
    apply List.map_congr_left
    intro ck _
    rw [classParamSpecValue, lookupVals_filter_dnsptr]
    by_cases h : ck = "dnsptr"
    · simp [h]
    · rcases lookupVals r ck with _ | rv <;> simp [h]
  refine ⟨h1, ?_⟩
  rw [h1, List.map_map,
    show (Prod.fst ∘ fun ck => (ck, classParamSpecValue r ck)) = id from
      funext (fun x => rfl),
    List.map_id]

/-- The keys the application pool Read/Import extraction asserts as strings
unconditionally. -/
def poolPanicKeys : List String :=
  ["apppool_name", "appapplication_name", "appapplication_fqdn", "apppool_lb_mode",
   "apppool_affinity_state", "apppool_best_active_nodes"]

/-- The keys the DNS zone Read extraction asserts as strings
unconditionally. -/
def zoneReadPanicKeys : List String :=
  ["dns_name", "dnsview_name", "dnszone_name", "dnszone_forward",
   "dnszone_forwarders", "dnszone_class_name", "dnszone_class_parameters"]

/-- The keys the DNS zone Import extraction asserts as strings
unconditionally (Read's keys plus `dnszone_type`). -/
def zoneImportPanicKeys : List String := "dnszone_type" :: zoneReadPanicKeys

/-- Every application pool mapped key (the conditional
`apppool_affinity_session_time` included) is present as a string. -/
def poolMappedKeysOk (o : JObj) : Prop :=
  ∀ k ∈ ("apppool_affinity_session_time" :: poolPanicKeys),
    (asString (jget o k)).isSome = true

/-- Every DNS zone mapped key is present as a string. -/
def zoneMappedKeysOk (o : JObj) : Prop :=
  ∀ k ∈ zoneImportPanicKeys, (asString (jget o k)).isSome = true

/-- If the pool Read extraction returns a value, every unconditionally
asserted key was present as a string. -/
theorem appPoolReadExtract_some_keys (d : AppPoolData) (o : JObj) (x : AppPoolData)
    (hx : appPoolReadExtract d o = some x) :
    ∀ k ∈ poolPanicKeys, (asString (jget o k)).isSome = true := by
  rw [appPoolReadExtract] at hx
  simp only [Option.bind_eq_some] at hx
  obtain ⟨nm, e1, app, e2, fq, e3, lb, e4, aff, e5, d2, e6, ban, e7, _⟩ := hx
  intro k hk
  have hk' : k = "apppool_name" ∨ k = "appapplication_name" ∨ k = "appapplication_fqdn"
      ∨ k = "apppool_lb_mode" ∨ k = "apppool_affinity_state"
      ∨ k = "apppool_best_active_nodes" := by
    simpa [poolPanicKeys] using hk
  rcases hk' with rfl | rfl | rfl | rfl | rfl | rfl
  · rw [e1]; rfl
  · rw [e2]; rfl
  · rw [e3]; rfl
  · rw [e4]; rfl
  · rw [e5]; rfl
  · rw [e7]; rfl

/-- If the pool Import extraction returns a value, every unconditionally
asserted key was present as a string. -/
theorem appPoolImportExtract_some_keys (d : AppPoolData) (o : JObj) (x : AppPoolData)
    (hx : appPoolImportExtract d o = some x) :
    ∀ k ∈ poolPanicKeys, (asString (jget o k)).isSome = true := by
  rw [appPoolImportExtract] at hx
  simp only [Option.bind_eq_some] at hx
  obtain ⟨nm, e1, app, e2, fq, e3, lb, e4, aff, e5, d2, e6, ban, e7, _⟩ := hx
  intro k hk
  have hk' : k = "apppool_name" ∨ k = "appapplication_name" ∨ k = "appapplication_fqdn"
      ∨ k = "apppool_lb_mode" ∨ k = "apppool_affinity_state"
      ∨ k = "apppool_best_active_nodes" := by
    simpa [poolPanicKeys] using hk
  rcases hk' with rfl | rfl | rfl | rfl | rfl | rfl
  · rw [e1]; rfl
  · rw [e2]; rfl
  · rw [e3]; rfl
  · rw [e4]; rfl
  · rw [e5]; rfl
  · rw [e7]; rfl

/-- If the zone Read extraction returns a value, every unconditionally
asserted key was present as a string. -/
theorem dnsZoneReadExtract_some_keys (d : DnsZoneData) (o : JObj) (x : DnsZoneData)
    (hx : dnsZoneReadExtract d o = some x) :
    ∀ k ∈ zoneReadPanicKeys, (asString (jget o k)).isSome = true := by
  rw [dnsZoneReadExtract] at hx
  simp only [Option.bind_eq_some] at hx
  obtain ⟨dn, e1, dv, e2, nm, e3, fw, e4, fwds, e5, cls, e6, cp, e7, _⟩ := hx
  intro k hk
  have hk' : k = "dns_name" ∨ k = "dnsview_name" ∨ k = "dnszone_name"
      ∨ k = "dnszone_forward" ∨ k = "dnszone_forwarders" ∨ k = "dnszone_class_name"
      ∨ k = "dnszone_class_parameters" := by
    simpa [zoneReadPanicKeys] using hk
  rcases hk' with rfl | rfl | rfl | rfl | rfl | rfl | rfl
  · rw [e1]; rfl
  · rw [e2]; rfl
  · rw [e3]; rfl
  · rw [e4]; rfl
  · rw [e5]; rfl
  · rw [e6]; rfl
  · rw [e7]; rfl

/-- If the zone Import extraction returns a value, every unconditionally
asserted key was present as a string. -/
theorem dnsZoneImportExtract_some_keys (d : DnsZoneData) (o : JObj) (x : DnsZoneData)
    (hx : dnsZoneImportExtract d o = some x) :
    ∀ k ∈ zoneImportPanicKeys, (asString (jget o k)).isSome = true := by
  rw [dnsZoneImportExtract] at hx
  simp only [Option.bind_eq_some] at hx
  obtain ⟨dn, e1, dv, e2, nm, e3, ty, e4, fw, e5, fwds, e6, cls, e7, cp, e8, _⟩ := hx
  intro k hk
  have hk' : k = "dnszone_type" ∨ k = "dns_name" ∨ k = "dnsview_name"
      ∨ k = "dnszone_name" ∨ k = "dnszone_forward" ∨ k = "dnszone_forwarders"
      ∨ k = "dnszone_class_name" ∨ k = "dnszone_class_parameters" := by
    simpa [zoneImportPanicKeys, zoneReadPanicKeys] using hk
  rcases hk' with rfl | rfl | rfl | rfl | rfl | rfl | rfl | rfl
  · rw [e4]; rfl
  · rw [e1]; rfl
  · rw [e2]; rfl
  · rw [e3]; rfl
  · rw [e5]; rfl
  · rw [e6]; rfl
  · rw [e7]; rfl
  · rw [e8]; rfl

/-- If every pool mapped key is present as a string, the pool Read extraction
does not panic. -/
theorem appPoolReadExtract_total (d : AppPoolData) (o : JObj) (h : poolMappedKeysOk o) :
    (appPoolReadExtract d o).isSome = true := by
  rcases Option.isSome_iff_exists.mp
    (h "apppool_name" (by simp [poolPanicKeys])) with ⟨nm, e1⟩
  rcases Option.isSome_iff_exists.mp
    (h "appapplication_name" (by simp [poolPanicKeys])) with ⟨app, e2⟩
  rcases Option.isSome_iff_exists.mp
    (h "appapplication_fqdn" (by simp [poolPanicKeys])) with ⟨fq, e3⟩
  rcases Option.isSome_iff_exists.mp
    (h "apppool_lb_mode" (by simp [poolPanicKeys])) with ⟨lb, e4⟩
  rcases Option.isSome_iff_exists.mp
    (h "apppool_affinity_state" (by simp [poolPanicKeys])) with ⟨aff, e5⟩
  rcases Option.isSome_iff_exists.mp
    (h "apppool_affinity_session_time" (by simp)) with ⟨stime, e6⟩
  rcases Option.isSome_iff_exists.mp
    (h "apppool_best_active_nodes" (by simp [poolPanicKeys])) with ⟨ban, e7⟩
  rw [appPoolReadExtract, e1, e2, e3, e4, e5]
  simp only [Option.some_bind]
  by_cases haff : aff = "0"
  · simp [haff, e7]
  · simp [haff, e6, e7]

/-- If every pool mapped key is present as a string, the pool Import
extraction does not panic. -/
theorem appPoolImportExtract_total (d : AppPoolData) (o : JObj) (h : poolMappedKeysOk o) :
    (appPoolImportExtract d o).isSome = true := by
  rcases Option.isSome_iff_exists.mp
    (h "apppool_name" (by simp [poolPanicKeys])) with ⟨nm, e1⟩
  rcases Option.isSome_iff_exists.mp
    (h "appapplication_name" (by simp [poolPanicKeys])) with ⟨app, e2⟩
  rcases Option.isSome_iff_exists.mp
    (h "appapplication_fqdn" (by simp [poolPanicKeys])) with ⟨fq, e3⟩
  rcases Option.isSome_iff_exists.mp
    (h "apppool_lb_mode" (by simp [poolPanicKeys])) with ⟨lb, e4⟩
  rcases Option.isSome_iff_exists.mp
    (h "apppool_affinity_state" (by simp [poolPanicKeys])) with ⟨aff, e5⟩
  rcases Option.isSome_iff_exists.mp
    (h "apppool_affinity_session_time" (by simp)) with ⟨stime, e6⟩
  rcases Option.isSome_iff_exists.mp
    (h "apppool_best_active_nodes" (by simp [poolPanicKeys])) with ⟨ban, e7⟩
  rw [appPoolImportExtract, e1, e2, e3, e4, e5]
  simp only [Option.some_bind]
  by_cases haff : aff = "0"
  · simp [haff, e7]
  · simp [haff, e6, e7]

/-- If every zone mapped key is present as a string, the zone Read extraction
does not panic. -/
theorem dnsZoneReadExtract_total (d : DnsZoneData) (o : JObj) (h : zoneMappedKeysOk o) :
    (dnsZoneReadExtract d o).isSome = true := by
  rcases Option.isSome_iff_exists.mp
    (h "dns_name" (by simp [zoneImportPanicKeys, zoneReadPanicKeys])) with ⟨dn, e1⟩
  rcases Option.isSome_iff_exists.mp
    (h "dnsview_name" (by simp [zoneImportPanicKeys, zoneReadPanicKeys])) with ⟨dv, e2⟩
  rcases Option.isSome_iff_exists.mp
    (h "dnszone_name" (by simp [zoneImportPanicKeys, zoneReadPanicKeys])) with ⟨nm, e3⟩
  rcases Option.isSome_iff_exists.mp
    (h "dnszone_forward" (by simp [zoneImportPanicKeys, zoneReadPanicKeys])) with ⟨fw, e4⟩
  rcases Option.isSome_iff_exists.mp
    (h "dnszone_forwarders" (by simp [zoneImportPanicKeys, zoneReadPanicKeys])) with ⟨fwds, e5⟩
  rcases Option.isSome_iff_exists.mp
    (h "dnszone_class_name" (by simp [zoneImportPanicKeys, zoneReadPanicKeys])) with ⟨cls, e6⟩
  rcases Option.isSome_iff_exists.mp
    (h "dnszone_class_parameters" (by simp [zoneImportPanicKeys, zoneReadPanicKeys])) with ⟨cp, e7⟩
  rw [dnsZoneReadExtract, e1, e2, e3, e4, e5, e6, e7]
  simp

/-- If every zone mapped key is present as a string, the zone Import
extraction does not panic. -/
theorem dnsZoneImportExtract_total (d : DnsZoneData) (o : JObj) (h : zoneMappedKeysOk o) :
    (dnsZoneImportExtract d o).isSome = true := by
  rcases Option.isSome_iff_exists.mp
    (h "dns_name" (by simp [zoneImportPanicKeys, zoneReadPanicKeys])) with ⟨dn, e1⟩
  rcases Option.isSome_iff_exists.mp
    (h "dnsview_name" (by simp [zoneImportPanicKeys, zoneReadPanicKeys])) with ⟨dv, e2⟩
  rcases Option.isSome_iff_exists.mp
    (h "dnszone_name" (by simp [zoneImportPanicKeys, zoneReadPanicKeys])) with ⟨nm, e3⟩
  rcases Option.isSome_iff_exists.mp
    (h "dnszone_type" (by simp [zoneImportPanicKeys])) with ⟨ty, e4⟩
  rcases Option.isSome_iff_exists.mp
    (h "dnszone_forward" (by simp [zoneImportPanicKeys, zoneReadPanicKeys])) with ⟨fw, e5⟩
  rcases Option.isSome_iff_exists.mp
    (h "dnszone_forwarders" (by simp [zoneImportPanicKeys, zoneReadPanicKeys])) with ⟨fwds, e6⟩
  rcases Option.isSome_iff_exists.mp
    (h "dnszone_class_name" (by simp [zoneImportPanicKeys, zoneReadPanicKeys])) with ⟨cls, e7⟩
  rcases Option.isSome_iff_exists.mp
    (h "dnszone_class_parameters" (by simp [zoneImportPanicKeys, zoneReadPanicKeys])) with ⟨cp, e8⟩
  rw [dnsZoneImportExtract, e1, e2, e3, e4, e5, e6, e7, e8]
  simp

/-- C10: on a status-200 answer with a non-empty array, the application pool
and DNS forward zone Read/Import handlers perform unchecked string type
assertions: they panic (modelled as `none`) whenever one of the
unconditionally mapped attribute keys is missing from the first element or
is bound to a non-string value, and they are total whenever every mapped key
is present as a string. -/
theorem read_import_string_assertions (v : Int) (hv : 710 ≤ v)
    (dp : AppPoolData) (dz : DnsZoneData) (rest : List JObj)
    (bp bz bzi gp gz : JObj) (kp kz kzi : String)
    (hkp : kp ∈ poolPanicKeys) (hnp : asString (jget bp kp) = none)
    (hkz : kz ∈ zoneReadPanicKeys) (hnz : asString (jget bz kz) = none)
    (hkzi : kzi ∈ zoneImportPanicKeys) (hnzi : asString (jget bzi kzi) = none)
    (hgp : poolMappedKeysOk gp) (hgz : zoneMappedKeysOk gz) :
    resourceapplicationpoolRead v dp (.ok 200 (bp :: rest)) = none ∧
    resourceapplicationpoolImportState v dp (.ok 200 (bp :: rest)) = none ∧
    resourcednsforwardzoneRead dz (.ok 200 (bz :: rest)) = none ∧
    resourcednsforwardzoneImportState dz (.ok 200 (bzi :: rest)) = none ∧
    (resourceapplicationpoolRead v dp (.ok 200 (gp :: rest))).isSome = true ∧
    (resourceapplicationpoolImportState v dp (.ok 200 (gp :: rest))).isSome = true ∧
    (resourcednsforwardzoneRead dz (.ok 200 (gz :: rest))).isSome = true ∧
    (resourcednsforwardzoneImportState dz (.ok 200 (gz :: rest))).isSome = true := by
  have hv' : ¬ v < 710 := not_lt.mpr hv
  have hep : appPoolReadExtract dp bp = none := by
    rcases he : appPoolReadExtract dp bp with _ | x
    · rfl
    · have hko := appPoolReadExtract_some_keys dp bp x he kp hkp
      rw [hnp] at hko
      simp at hko
  have hepi : appPoolImportExtract dp bp = none := by
    rcases he : appPoolImportExtract dp bp with _ | x
    · rfl
    · have hko := appPoolImportExtract_some_keys dp bp x he kp hkp
      rw [hnp] at hko
      simp at hko
  have hez : dnsZoneReadExtract dz bz = none := by
    rcases he : dnsZoneReadExtract dz bz with _ | x
    · rfl
    · have hko := dnsZoneReadExtract_some_keys dz bz x he kz hkz
      rw [hnz] at hko
      simp at hko
  have hezi : dnsZoneImportExtract dz bzi = none := by
    rcases he : dnsZoneImportExtract dz bzi with _ | x
    · rfl
    · have hko := dnsZoneImportExtract_some_keys dz bzi x he kzi hkzi
      rw [hnzi] at hko
      simp at hko
  rcases Option.isSome_iff_exists.mp (appPoolReadExtract_total dp gp hgp) with ⟨x1, hg1⟩
  rcases Option.isSome_iff_exists.mp (appPoolImportExtract_total dp gp hgp) with ⟨x2, hg2⟩
  rcases Option.isSome_iff_exists.mp (dnsZoneReadExtract_total dz gz hgz) with ⟨x3, hg3⟩
  rcases Option.isSome_iff_exists.mp (dnsZoneImportExtract_total dz gz hgz) with ⟨x4, hg4⟩
  refine ⟨?_, ?_, ?_, ?_, ?_, ?_, ?_, ?_⟩
  · simp [resourceapplicationpoolRead, hv', hep]
  · simp [resourceapplicationpoolImportState, hv', hepi]
  · simp [resourcednsforwardzoneRead, hez]
  · simp [resourcednsforwardzoneImportState, hezi]
  · simp [resourceapplicationpoolRead, hv', hg1]
  · simp [resourceapplicationpoolImportState, hv', hg2]
  · simp [resourcednsforwardzoneRead, hg3]
  · simp [resourcednsforwardzoneImportState, hg4]

/-- A pool info answer element with every mapped key present as a string. -/
def goodPoolObj : JObj :=
  [("apppool_name", JValue.str "pool1"), ("appapplication_name", JValue.str "app1"),
   ("appapplication_fqdn", JValue.str "app1.example.com"),
   ("apppool_lb_mode", JValue.str "latency"),
   ("apppool_affinity_state", JValue.str "1"),
   ("apppool_affinity_session_time", JValue.str "300"),
   ("apppool_best_active_nodes", JValue.str "2")]

/-- A zone info answer element with every mapped key present as a string. -/
def goodZoneObj : JObj :=
  [("dns_name", JValue.str "smart.local"), ("dnsview_name", JValue.str "#"),
   ("dnszone_name", JValue.str "example.com"), ("dnszone_type", JValue.str "forward"),
   ("dnszone_forward", JValue.str "Only"),
   ("dnszone_forwarders", JValue.str "10.0.0.1;"),
   ("dnszone_class_name", JValue.str ""),
   ("dnszone_class_parameters", JValue.str "vlan=12&dnsptr=1")]

/-- Witness for `read_import_string_assertions`: an empty first element
panics all four handlers, and fully string-populated elements keep them
total. -/
theorem read_import_string_assertions_witness :
    resourceapplicationpoolRead 800 poolSample (.ok 200 (([] : JObj) :: [])) = none ∧
    resourceapplicationpoolImportState 800 poolSample (.ok 200 (([] : JObj) :: [])) = none ∧
    resourcednsforwardzoneRead zoneSample (.ok 200 (([] : JObj) :: [])) = none ∧
    resourcednsforwardzoneImportState zoneSample (.ok 200 (([] : JObj) :: [])) = none ∧
    (resourceapplicationpoolRead 800 poolSample (.ok 200 (goodPoolObj :: []))).isSome = true ∧
    (resourceapplicationpoolImportState 800 poolSample
      (.ok 200 (goodPoolObj :: []))).isSome = true ∧
    (resourcednsforwardzoneRead zoneSample (.ok 200 (goodZoneObj :: []))).isSome = true ∧
    (resourcednsforwardzoneImportState zoneSample
      (.ok 200 (goodZoneObj :: []))).isSome = true :=
  read_import_string_assertions 800 (by decide) poolSample zoneSample []
    [] [] [] goodPoolObj goodZoneObj "apppool_name" "dns_name" "dnszone_type"
    (by decide) rfl (by decide) rfl (by decide) rfl
    (by unfold poolMappedKeysOk; decide) (by unfold zoneMappedKeysOk; decide)

/-- C4 counterexample: the IP-MAC Create is a Create operation that, on
status 201 with a first element lacking a string `ret_oid` but carrying an
`errmsg`, returns neither the stored-id success nor an application error: it
returns nil diagnostics with the id unchanged, and the `errmsg` is never
reported. -/
theorem ipmac_create_escapes_error_contract :
    (resourceipmacCreate ipmacSample
      (.ok 201 [[("errmsg", JValue.str "dup")]])).diags = none ∧
    (resourceipmacCreate ipmacSample
      (.ok 201 [[("errmsg", JValue.str "dup")]])).state.rid = "42" :=
  ⟨rfl, rfl⟩
